import Mathlib

/-!
Verification development for the `initiative-dashboard` backend-for-frontend
adapter (`src/gcloud-function/main.py`).  The Python source is shallowly
embedded below: JSON values become the inductive `JVal`, Python dicts become
association lists with first-match lookup, the regular expressions used by the
free-text extractors become a tiny backtracking matcher over a fixed regex
shape, and the HTTP handler `bot_stratix_backend_generative` becomes a pure
function from an environment (secrets, platform URL, downstream result) and an
inbound request to an HTTP status, response body, and the outbound payload, if
any, that was sent to the downstream data API.
-/

set_option maxRecDepth 4000

namespace Stratix

/-- JSON-like values, the payloads carried in request parameter mappings and
downstream responses. -/
inductive JVal where
  | str (s : String)
  | num (n : Int)
  | bool (b : Bool)
  | null
  | obj (fields : List (String × JVal))
  | arr (elems : List JVal)

mutual
/-- Decidable equality of JSON values (the derive handler does not support
nested inductives, so it is spelled out). -/
def decEqJVal : (a b : JVal) → Decidable (a = b)
  | .str x, .str y =>
    if h : x = y then .isTrue (by subst h; rfl)
    else .isFalse (by intro hh; injection hh; contradiction)
  | .num x, .num y =>
    if h : x = y then .isTrue (by subst h; rfl)
    else .isFalse (by intro hh; injection hh; contradiction)
  | .bool x, .bool y =>
    if h : x = y then .isTrue (by subst h; rfl)
    else .isFalse (by intro hh; injection hh; contradiction)
  | .null, .null => .isTrue rfl
  | .obj xs, .obj ys =>
    match decEqJFields xs ys with
    | .isTrue h => .isTrue (by subst h; rfl)
    | .isFalse h => .isFalse (by intro hh; injection hh; contradiction)
  | .arr xs, .arr ys =>
    match decEqJElems xs ys with
    | .isTrue h => .isTrue (by subst h; rfl)
    | .isFalse h => .isFalse (by intro hh; injection hh; contradiction)
  | .str _, .num _ => .isFalse (fun h => JVal.noConfusion h)
  | .str _, .bool _ => .isFalse (fun h => JVal.noConfusion h)
  | .str _, .null => .isFalse (fun h => JVal.noConfusion h)
  | .str _, .obj _ => .isFalse (fun h => JVal.noConfusion h)
  | .str _, .arr _ => .isFalse (fun h => JVal.noConfusion h)
  | .num _, .str _ => .isFalse (fun h => JVal.noConfusion h)
  | .num _, .bool _ => .isFalse (fun h => JVal.noConfusion h)
  | .num _, .null => .isFalse (fun h => JVal.noConfusion h)
  | .num _, .obj _ => .isFalse (fun h => JVal.noConfusion h)
  | .num _, .arr _ => .isFalse (fun h => JVal.noConfusion h)
  | .bool _, .str _ => .isFalse (fun h => JVal.noConfusion h)
  | .bool _, .num _ => .isFalse (fun h => JVal.noConfusion h)
  | .bool _, .null => .isFalse (fun h => JVal.noConfusion h)
  | .bool _, .obj _ => .isFalse (fun h => JVal.noConfusion h)
  | .bool _, .arr _ => .isFalse (fun h => JVal.noConfusion h)
  | .null, .str _ => .isFalse (fun h => JVal.noConfusion h)
  | .null, .num _ => .isFalse (fun h => JVal.noConfusion h)
  | .null, .bool _ => .isFalse (fun h => JVal.noConfusion h)
  | .null, .obj _ => .isFalse (fun h => JVal.noConfusion h)
  | .null, .arr _ => .isFalse (fun h => JVal.noConfusion h)
  | .obj _, .str _ => .isFalse (fun h => JVal.noConfusion h)
  | .obj _, .num _ => .isFalse (fun h => JVal.noConfusion h)
  | .obj _, .bool _ => .isFalse (fun h => JVal.noConfusion h)
  | .obj _, .null => .isFalse (fun h => JVal.noConfusion h)
  | .obj _, .arr _ => .isFalse (fun h => JVal.noConfusion h)
  | .arr _, .str _ => .isFalse (fun h => JVal.noConfusion h)
  | .arr _, .num _ => .isFalse (fun h => JVal.noConfusion h)
  | .arr _, .bool _ => .isFalse (fun h => JVal.noConfusion h)
  | .arr _, .null => .isFalse (fun h => JVal.noConfusion h)
  | .arr _, .obj _ => .isFalse (fun h => JVal.noConfusion h)

/-- Decidable equality of key/value pair lists. -/
def decEqJFields : (xs ys : List (String × JVal)) → Decidable (xs = ys)
  | [], [] => .isTrue rfl
  | [], _ :: _ => .isFalse (fun h => List.noConfusion h)
  | _ :: _, [] => .isFalse (fun h => List.noConfusion h)
  | (k1, v1) :: xs, (k2, v2) :: ys =>
    if hk : k1 = k2 then
      match decEqJVal v1 v2 with
      | .isTrue hv =>
        match decEqJFields xs ys with
        | .isTrue ht => .isTrue (by subst hk; subst hv; subst ht; rfl)
        | .isFalse ht => .isFalse (by intro hh; injection hh; contradiction)
      | .isFalse hv => .isFalse (by
          intro hh
          injection hh with h1 h2
          exact hv (congrArg Prod.snd h1))
    else .isFalse (by
      intro hh
      injection hh with h1 h2
      exact hk (congrArg Prod.fst h1))

/-- Decidable equality of JSON value lists. -/
def decEqJElems : (xs ys : List JVal) → Decidable (xs = ys)
  | [], [] => .isTrue rfl
  | [], _ :: _ => .isFalse (fun h => List.noConfusion h)
  | _ :: _, [] => .isFalse (fun h => List.noConfusion h)
  | x :: xs, y :: ys =>
    match decEqJVal x y with
    | .isTrue hv =>
      match decEqJElems xs ys with
      | .isTrue ht => .isTrue (by subst hv; subst ht; rfl)
      | .isFalse ht => .isFalse (by intro hh; injection hh; contradiction)
    | .isFalse hv => .isFalse (by intro hh; injection hh; contradiction)
end

instance : DecidableEq JVal := decEqJVal

instance {ε α : Type} [DecidableEq ε] [DecidableEq α] : DecidableEq (Except ε α)
  | .ok a, .ok b =>
    if h : a = b then .isTrue (by subst h; rfl)
    else .isFalse (by intro hh; injection hh; contradiction)
  | .error a, .error b =>
    if h : a = b then .isTrue (by subst h; rfl)
    else .isFalse (by intro hh; injection hh; contradiction)
  | .ok _, .error _ => .isFalse (fun h => Except.noConfusion h)
  | .error _, .ok _ => .isFalse (fun h => Except.noConfusion h)

/-- A Python dict with string keys, modelled as an association list; keys are
unique in every dict the program builds, and lookup returns the first match. -/
abbrev Dict := List (String × JVal)

/-- Lookup of a key in a dict (`d[k]` / `d.get(k)` when present). -/
def dlookup : Dict → String → Option JVal
  | [], _ => none
  | (k0, v0) :: rest, k => if k0 = k then some v0 else dlookup rest k

/-- Python `k in d`. -/
def hasKey (d : Dict) (k : String) : Bool := (dlookup d k).isSome

/-- Python `d.get(k)`: the stored value, or `None` when the key is absent. -/
def pyGet (d : Dict) (k : String) : JVal := (dlookup d k).getD .null

/-- Python `d.get(k, default)`: the stored value (even if it is `None`), or
the default when the key is absent. -/
def pyGetD (d : Dict) (k : String) (dflt : JVal) : JVal := (dlookup d k).getD dflt

/-- Python `d[k] = v`: replace the value in place when the key exists,
otherwise append the new pair at the end (insertion order). -/
def dset : Dict → String → JVal → Dict
  | [], k, v => [(k, v)]
  | (k0, v0) :: rest, k, v =>
    if k0 = k then (k0, v) :: rest else (k0, v0) :: dset rest k v

/-- Python truthiness of a JSON value (`if x:`). -/
def truthy : JVal → Bool
  | .str s => !(s = "")
  | .num n => !(n = 0)
  | .bool b => b
  | .null => false
  | .obj fields => !fields.isEmpty
  | .arr elems => !elems.isEmpty

mutual
/-- Python `repr` of a JSON value, used when a dict is interpolated into an
error message f-string. -/
def pyRepr : JVal → String
  | .str s => "\x27" ++ s ++ "\x27"
  | .num n => toString n
  | .bool true => "True"
  | .bool false => "False"
  | .null => "None"
  | .obj fields => "\x7b" ++ pyReprFields fields ++ "\x7d"
  | .arr elems => "[" ++ pyReprElems elems ++ "]"

/-- Comma-separated `repr` of a dict's key/value pairs. -/
def pyReprFields : List (String × JVal) → String
  | [] => ""
  | [(k, v)] => "\x27" ++ k ++ "\x27: " ++ pyRepr v
  | (k, v) :: rest => "\x27" ++ k ++ "\x27: " ++ pyRepr v ++ ", " ++ pyReprFields rest

/-- Comma-separated `repr` of a list's elements. -/
def pyReprElems : List JVal → String
  | [] => ""
  | [v] => pyRepr v
  | v :: rest => pyRepr v ++ ", " ++ pyReprElems rest
end

/-- Python `str(x)` as used inside f-strings. -/
def pyStr : JVal → String
  | .str s => s
  | v => pyRepr v

/-- The Python type name of a JSON value, as it appears in an
`AttributeError` message. -/
def pyTypeName : JVal → String
  | .str _ => "str"
  | .num _ => "int"
  | .bool _ => "bool"
  | .null => "NoneType"
  | .obj _ => "dict"
  | .arr _ => "list"

/-! ## Character-level helpers

The source lowercases and strips the utterance, and title-cases the extracted
entity name.  The inputs are Spanish, so the case maps cover ASCII plus the
accented letters that occur in the patterns and utterances. -/

/-- Whitespace as matched by `\s` and stripped by `str.strip()`. -/
def isSpaceCh (c : Char) : Bool :=
  c = ' ' || c = '\t' || c = '\n' || c = '\r' || c = '\x0b' || c = '\x0c'

/-- Lower-case map covering ASCII and the Spanish accented letters. -/
def toLowerCh (c : Char) : Char :=
  if 'A' ≤ c ∧ c ≤ 'Z' then Char.ofNat (c.toNat + 32)
  else if c = 'Á' then 'á' else if c = 'É' then 'é' else if c = 'Í' then 'í'
  else if c = 'Ó' then 'ó' else if c = 'Ú' then 'ú' else if c = 'Ñ' then 'ñ'
  else if c = 'Ü' then 'ü' else c

/-- Upper-case map covering ASCII and the Spanish accented letters. -/
def toUpperCh (c : Char) : Char :=
  if 'a' ≤ c ∧ c ≤ 'z' then Char.ofNat (c.toNat - 32)
  else if c = 'á' then 'Á' else if c = 'é' then 'É' else if c = 'í' then 'Í'
  else if c = 'ó' then 'Ó' else if c = 'ú' then 'Ú' else if c = 'ñ' then 'Ñ'
  else if c = 'ü' then 'Ü' else c

/-- A cased character, relevant to `str.title()` word boundaries. -/
def isCasedCh (c : Char) : Bool :=
  ('a' ≤ c && c ≤ 'z') || ('A' ≤ c && c ≤ 'Z') ||
  ['á', 'é', 'í', 'ó', 'ú', 'ñ', 'ü', 'Á', 'É', 'Í', 'Ó', 'Ú', 'Ñ', 'Ü'].contains c

/-- `str.lower()`. -/
def pyLower (l : List Char) : List Char := l.map toLowerCh

/-- `str.strip()`. -/
def pyStrip (l : List Char) : List Char :=
  ((l.dropWhile isSpaceCh).reverse.dropWhile isSpaceCh).reverse

/-- Worker for `str.title()`: the flag records whether the previous character
was cased; the first cased character of each run is upper-cased, subsequent
cased characters are lower-cased. -/
def pyTitleGo : Bool → List Char → List Char
  | _, [] => []
  | prev, c :: rest =>
    if isCasedCh c then
      (if prev then toLowerCh c else toUpperCh c) :: pyTitleGo true rest
    else c :: pyTitleGo false rest

/-- `str.title()`. -/
def pyTitle (l : List Char) : List Char := pyTitleGo false l

/-! ## The regex fragment used by the extractors

The patterns in `extract_initiative_name_from_text` and
`extract_area_name_from_text` use only literals, `\s+`, greedy `(?:...)?`
options, alternation, concatenation, and one final greedy capture `([^?]+)`.
`REmatches` enumerates, in backtracking preference order (greedy first), the
possible remainders of the input after the prefix of the pattern before the
capture group; `searchCap` then mirrors `re.search`: leftmost starting
position wins, and at that position the first remainder in backtracking order
with at least one non-`?` character ahead yields the captured group. -/

inductive RE where
  | lit (cs : List Char)
  | ws1
  | opt (r : RE)
  | alt (a b : RE)
  | seq (a b : RE)

/-- Does the first list occur as a prefix of the second? -/
def startsWithChars : List Char → List Char → Bool
  | [], _ => true
  | _ :: _, [] => false
  | p :: ps, c :: cs => p = c && startsWithChars ps cs

/-- Remainders after `\s+` consumes 1..k whitespace characters, longest
consumption (greedy) first. -/
def wsRemainders : List Char → List (List Char)
  | [] => []
  | c :: rest => if isSpaceCh c then wsRemainders rest ++ [rest] else []

/-- All remainders of the input after matching the pattern, in backtracking
preference order. -/
def REmatches : RE → List Char → List (List Char)
  | .lit cs, s => if startsWithChars cs s then [s.drop cs.length] else []
  | .ws1, s => wsRemainders s
  | .opt r, s => REmatches r s ++ [s]
  | .alt a b, s => REmatches a s ++ REmatches b s
  | .seq a b, s => (REmatches a s).flatMap (fun t => REmatches b t)

/-- Try the full pattern `r([^?]+)` anchored at this position: the first
remainder (in backtracking order) whose head exists and is not `?` succeeds,
and the capture is the maximal run of non-`?` characters. -/
def capAt (r : RE) (s : List Char) : Option (List Char) :=
  (REmatches r s).findSome? (fun t =>
    match t with
    | [] => none
    | c :: _ => if c = '?' then none else some (t.takeWhile (fun d => !(d = '?'))))

/-- `re.search` for `r([^?]+)`: scan starting positions left to right and
return the captured group of the first successful match. -/
def searchCap (r : RE) : List Char → Option (List Char)
  | [] => capAt r []
  | c :: rest =>
    match capAt r (c :: rest) with
    | some g => some g
    | none => searchCap r rest

/-- `re.sub` with a pattern anchored at `^` and an empty replacement: drop the
(backtracking-first) match at position 0 when there is one. -/
def subAnchored (r : RE) (s : List Char) : List Char :=
  match (REmatches r s).head? with
  | some rest => rest
  | none => s

/-- String literal to character list. -/
def chars (s : String) : List Char := s.data

/-- `de\s+`. -/
def reDE : RE := .seq (.lit (chars "de")) .ws1

/-- `la\s+`. -/
def reLA : RE := .seq (.lit (chars "la")) .ws1

/-- `iniciativa\s+(?:de\s+)?` — prefix of the first initiative pattern. -/
def initiativePat1 : RE := .seq (.lit (chars "iniciativa")) (.seq .ws1 (.opt reDE))

/-- `(?:progreso|estado)\s+de\s+(?:la\s+)?` — prefix of the second initiative
pattern. -/
def initiativePat2 : RE :=
  .seq (.alt (.lit (chars "progreso")) (.lit (chars "estado")))
    (.seq .ws1 (.seq (.lit (chars "de")) (.seq .ws1 (.opt reLA))))

/-- `(?:cómo\s+va)\s+(?:la\s+)?` — prefix of the third initiative pattern. -/
def initiativePat3 : RE :=
  .seq (.lit (chars "cómo")) (.seq .ws1 (.seq (.lit (chars "va")) (.seq .ws1 (.opt reLA))))

/-- `^(?:la\s+)?iniciativa\s+(?:de\s+)?` — the cleanup prefix stripped from an
extracted initiative name. -/
def initiativeCleanupRE : RE :=
  .seq (.opt reLA) (.seq (.lit (chars "iniciativa")) (.seq .ws1 (.opt reDE)))

/-- `área\s+(?:de\s+)?`. -/
def areaPat1 : RE := .seq (.lit (chars "área")) (.seq .ws1 (.opt reDE))

/-- `división\s+(?:de\s+)?`. -/
def areaPat2 : RE := .seq (.lit (chars "división")) (.seq .ws1 (.opt reDE))

/-- `departamento\s+(?:de\s+)?`. -/
def areaPat3 : RE := .seq (.lit (chars "departamento")) (.seq .ws1 (.opt reDE))

/-- `(?:kpis?\s+del?\s+área\s+(?:de\s+)?)`. -/
def areaPat4 : RE :=
  .seq (.lit (chars "kpi")) (.seq (.opt (.lit (chars "s")))
    (.seq .ws1 (.seq (.lit (chars "de")) (.seq (.opt (.lit (chars "l")))
      (.seq .ws1 (.seq (.lit (chars "área")) (.seq .ws1 (.opt reDE))))))))

/-- `^(?:la\s+|el\s+)?(?:área|división|departamento)\s+(?:de\s+)?` — the
cleanup prefix stripped from an extracted area name. -/
def areaCleanupRE : RE :=
  .seq (.opt (.alt reLA (.seq (.lit (chars "el")) .ws1)))
    (.seq (.alt (.lit (chars "área")) (.alt (.lit (chars "división")) (.lit (chars "departamento"))))
      (.seq .ws1 (.opt reDE)))

/-- Shared body of the two extractors: lowercase and strip the utterance, try
the patterns in order with `re.search`, and on the first match strip the
captured group, drop the cleanup prefix, and title-case the result. -/
def extractViaPatterns (pats : List RE) (cleanup : RE) (text : String) : Option String :=
  let tl := pyStrip (pyLower text.data)
  match pats.findSome? (fun r => searchCap r tl) with
  | none => none
  | some grp => some (String.mk (pyTitle (subAnchored cleanup (pyStrip grp))))

/-- `extract_initiative_name_from_text` from `main.py`. -/
def extract_initiative_name_from_text (text : String) : Option String :=
  extractViaPatterns [initiativePat1, initiativePat2, initiativePat3] initiativeCleanupRE text

/-- `extract_area_name_from_text` from `main.py`. -/
def extract_area_name_from_text (text : String) : Option String :=
  extractViaPatterns [areaPat1, areaPat2, areaPat3, areaPat4] areaCleanupRE text

/-! ## The inbound request and the handler's environment

A parsed JSON body is classified by the presence of `fulfillmentInfo`: the
webhook shape carries `fulfillmentInfo.tag`, `sessionInfo.parameters`, and the
raw `text` (each defaulted when absent, as by the `.get` calls in the source);
the tool shape carries `tool` and `tool_parameters`.  External collaborators
are modelled as an environment: each secret either raises (with some message)
or yields a string, the platform base URL either resolves or
`get_platform_base_url` raises its `ValueError`, and the downstream data API
yields one of the four outcomes the handler distinguishes. -/

/-- The webhook shape: `fulfillmentInfo.tag`, `sessionInfo.parameters`, `text`. -/
structure WebhookReq where
  tag : String
  sessionParams : Dict
  text : String

/-- The tool shape: `tool`, `tool_parameters`. -/
structure ToolReq where
  tool : String
  toolParams : Dict

/-- An inbound request with a valid JSON body, already classified by the
presence of `fulfillmentInfo`. -/
inductive InboundRequest where
  | webhook (w : WebhookReq)
  | tool (t : ToolReq)

/-- The top-level `params` variable: session parameters in the webhook case,
`tool_parameters` in the tool case. -/
def topParams : InboundRequest → Dict
  | .webhook w => w.sessionParams
  | .tool t => t.toolParams

/-- Python exceptions the handler can raise and catch.  `unboundLocalError`
is the `UnboundLocalError` (a `NameError` subclass) raised when a local
variable is read before any assignment to it has run; it carries the
interpreter's message. -/
inductive PyError where
  | valueError (msg : String)
  | unboundLocalError (msg : String)
  | requestException (msg : String)
  | otherError (msg : String)
deriving DecidableEq

/-- The message of the `UnboundLocalError` raised when the webhook path
reaches the credential-500 branch and reads `tool_name_full`, a local of the
function (assigned only on the tool path, line 158) that has no value on the
webhook path.  This is the CPython 3.11+ wording; older interpreters say
"local variable 'tool_name_full' referenced before assignment". -/
def unboundLocalMsg : String :=
  "cannot access local variable 'tool_name_full' where it is not associated with a value"

/-- Outcome of the downstream Supabase call: HTTP 200 with `success` truthy
and a `data` object, HTTP 200 with `success` falsy (and an optional `error`
message), a non-200 HTTP status with a body, or a raised
`requests.exceptions.RequestException`. -/
inductive DownstreamResult where
  | ok (data : Dict)
  | businessError (msg : Option String)
  | httpError (status : Nat) (body : String)
  | netError (msg : String)

/-- The handler's environment: the two secrets (either an exception message or
a value), the platform base URL (`none` when `get_platform_base_url` raises
its `ValueError`), and the downstream call's outcome. -/
structure Env where
  supabaseUrl : Except String String
  supabaseKey : Except String String
  platformUrl : Option String
  downstream : DownstreamResult

/-- The payload of the outbound POST to the downstream data API. -/
structure Payload where
  action : String
  params : Dict
  userToken : Option JVal
deriving DecidableEq

/-- A response body: the Dialogflow webhook shape (a list of message texts)
or the tool-call shape (`tool_output` with the tool name and an output
object). -/
inductive Resp where
  | fulfillment (texts : List JVal)
  | toolOutput (tool : String) (output : Dict)
deriving DecidableEq

/-! ## The three mappers (main.py lines 129-155, 166-201, 219-255) -/

/-- The webhook tag mapper (lines 129-155): exact-match table from the tag to
an action plus parameters extracted from the raw text; any other tag raises
`ValueError`.  A falsy (empty or `None`) extraction omits the key. -/
def webhookFirstMap (w : WebhookReq) : Except PyError (String × Dict) :=
  if w.tag = "company_overview" then .ok ("get_company_overview", [])
  else if w.tag = "initiative_status" then
    let sp : Dict :=
      match extract_initiative_name_from_text w.text with
      | some s => if s = "" then [] else [("nombre_iniciativa", .str s)]
      | none => []
    .ok ("get_initiative_status", sp)
  else if w.tag = "area_kpis" then
    let sp : Dict :=
      match extract_area_name_from_text w.text with
      | some s => if s = "" then [] else [("nombre_area", .str s)]
      | none => []
    .ok ("get_area_kpis", sp)
  else .error (.valueError ("Unsupported tag: " ++ w.tag))

/-- The first tool-call parameter mapper (lines 166-201): first-match-wins
over the fixed predicate list, raising `ValueError` when nothing matches. -/
def toolFirstMap (p : Dict) : Except PyError (String × Dict) :=
  if hasKey p "nombre_iniciativa" || hasKey p "initiative_id" then
    .ok ("get_initiative_status",
      [("nombre_iniciativa", pyGet p "nombre_iniciativa"),
       ("initiative_id", pyGet p "initiative_id")])
  else if hasKey p "nombre_area" || hasKey p "area_id" then
    .ok ("get_area_kpis",
      [("nombre_area", pyGet p "nombre_area"), ("area_id", pyGet p "area_id")])
  else if hasKey p "user_id" then
    .ok ("get_user_initiatives",
      [("user_id", pyGet p "user_id"), ("limit", pyGetD p "limit" (.num 10))])
  else if hasKey p "query" then
    .ok ("search_initiatives",
      [("query", pyGet p "query"), ("limit", pyGetD p "limit" (.num 20))])
  else if pyGet p "action" = .str "company_overview" then
    .ok ("get_company_overview", [])
  else if pyGet p "action" = .str "suggestions" then
    .ok ("get_initiative_suggestions",
      [("area_id", pyGet p "area_id"), ("user_role", pyGet p "user_role")])
  else .error (.valueError ("No valid action found for tool parameters: " ++ pyRepr (.obj p)))

/-- The first mapper, dispatched on the request shape. -/
def firstMap : InboundRequest → Except PyError (String × Dict)
  | .webhook w => webhookFirstMap w
  | .tool t => toolFirstMap t.toolParams

/-- The second mapper (lines 219-255): the same predicate cascade over the
top-level `params`, reassigning `action` and `supabase_params`, but defaulting
to `get_company_overview` with empty params when nothing matches. -/
def secondMap (p : Dict) : String × Dict :=
  if hasKey p "nombre_iniciativa" || hasKey p "initiative_id" then
    ("get_initiative_status",
      [("nombre_iniciativa", pyGet p "nombre_iniciativa"),
       ("initiative_id", pyGet p "initiative_id")])
  else if hasKey p "nombre_area" || hasKey p "area_id" then
    ("get_area_kpis",
      [("nombre_area", pyGet p "nombre_area"), ("area_id", pyGet p "area_id")])
  else if hasKey p "user_id" then
    ("get_user_initiatives",
      [("user_id", pyGet p "user_id"), ("limit", pyGetD p "limit" (.num 10))])
  else if hasKey p "query" then
    ("search_initiatives",
      [("query", pyGet p "query"), ("limit", pyGetD p "limit" (.num 20))])
  else if pyGet p "action" = .str "company_overview" then
    ("get_company_overview", [])
  else if pyGet p "action" = .str "suggestions" then
    ("get_initiative_suggestions",
      [("area_id", pyGet p "area_id"), ("user_role", pyGet p "user_role")])
  else ("get_company_overview", [])

/-! ## Enrichment, the try block, and the response (lines 257-352) -/

/-- Response enrichment (lines 292-306), reached only when
`get_platform_base_url` returned a value `u`.  Mirrors the source: initiative
and area enrichment add the deep link (guarded on a truthy URL and id) and
then the summary; company enrichment reads the `company_metrics` sub-object —
raising, as Python does, when that value is present but not a mapping — sets
the summary, and then adds the dashboard link. -/
def enrich (u : String) (action : String) (d : Dict) : Except PyError Dict :=
  if action = "get_initiative_status" && !d.isEmpty then
    let d1 :=
      if !(u = "") && truthy (pyGet d "id") then
        dset d "link" (.str (u ++ "/initiatives/" ++ pyStr (pyGet d "id")))
      else d
    .ok (dset d1 "resumen" (.str
      ("La iniciativa '" ++ pyStr (pyGetD d1 "title" (.str "")) ++
       "' tiene un progreso del " ++ pyStr (pyGetD d1 "progress" (.num 0)) ++
       "% y está en estado '" ++ pyStr (pyGetD d1 "status" (.str "")) ++ "'.")))
  else if action = "get_area_kpis" && !d.isEmpty then
    let d1 :=
      if !(u = "") && truthy (pyGet d "area_id") then
        dset d "link" (.str (u ++ "/areas/" ++ pyStr (pyGet d "area_id")))
      else d
    .ok (dset d1 "resumen" (.str
      ("El área '" ++ pyStr (pyGetD d1 "area_name" (.str "")) ++
       "' tiene " ++ pyStr (pyGetD d1 "total_initiatives" (.num 0)) ++
       " iniciativas con un progreso promedio del " ++
       pyStr (pyGetD d1 "avg_progress" (.num 0)) ++ "%.")))
  else if action = "get_company_overview" && !d.isEmpty then
    match pyGetD d "company_metrics" (.obj []) with
    | .obj m =>
      let d1 := dset d "resumen" (.str
        ("La empresa tiene " ++ pyStr (pyGetD m "total_initiatives" (.num 0)) ++
         " iniciativas, " ++ pyStr (pyGetD m "completed_initiatives" (.num 0)) ++
         " completadas y un progreso general del " ++
         pyStr (pyGetD m "overall_progress" (.num 0)) ++ "%."))
      .ok (if !(u = "") then dset d1 "link" (.str (u ++ "/dashboard")) else d1)
    | v => .error (.otherError ("'" ++ pyTypeName v ++ "' object has no attribute 'get'"))
  else .ok d

/-- Outcome of the handler's `try` block: an early `return` (the credential
500 on the tool path), an exception reaching the outer handlers, or a
computed `output_data`; `sent` records the outbound payload when the
downstream call had already been made. -/
inductive TryOutcome where
  | earlyReturn (status : Nat) (body : Resp)
  | exc (sent : Option Payload) (e : PyError)
  | outData (sent : Payload) (d : Dict)

/-- The outbound payload (lines 219-271): `action` and `params` from the
second mapper over the top-level `params`, plus `user_token` when that key is
present in the top-level `params`. -/
def payloadOf (req : InboundRequest) : Payload :=
  ⟨(secondMap (topParams req)).1, (secondMap (topParams req)).2,
   dlookup (topParams req) "user_token"⟩

/-- The handler's `try` block (lines 100-323): classify and run the first
mapper (whose result is then overwritten), fetch the credentials, run the
second mapper over the top-level `params`, build and send the payload, and
shape `output_data` from the downstream outcome, enriching on success.  On
the webhook path the credential-500 branch reads the never-assigned local
`tool_name_full` and therefore raises `UnboundLocalError`. -/
def runTry (env : Env) (req : InboundRequest) : TryOutcome :=
  match firstMap req with
  | .error e => .exc none e
  | .ok _ =>
    match env.supabaseUrl with
    | .error m => .exc none (.otherError m)
    | .ok u =>
      match env.supabaseKey with
      | .error m => .exc none (.otherError m)
      | .ok k =>
        if u = "" || k = "" then
          match req with
          | .webhook _ => .exc none (.unboundLocalError unboundLocalMsg)
          | .tool t =>
            .earlyReturn 500 (.toolOutput t.tool
              [("error", .str "Unable to retrieve Supabase credentials")])
        else
          match env.downstream with
          | .netError m => .exc (some (payloadOf req)) (.requestException m)
          | .httpError st body =>
            .outData (payloadOf req)
              [("error", .str ("Supabase request failed: " ++ toString st ++ " - " ++ body))]
          | .businessError msg =>
            .outData (payloadOf req) [("error", .str (msg.getD "Unknown error from Supabase"))]
          | .ok d =>
            match env.platformUrl with
            | none => .outData (payloadOf req) d
            | some u2 =>
              match enrich u2 (payloadOf req).action d with
              | .ok od => .outData (payloadOf req) od
              | .error e => .exc (some (payloadOf req)) e

/-- The two `except` clauses (lines 319-323): a `RequestException` is wrapped
as a network error, anything else as an internal error embedding the
exception's own message. -/
def handleExc : PyError → Dict
  | .requestException m => [("error", .str ("Network error calling Supabase: " ++ m))]
  | .valueError m => [("error", .str ("Internal error: " ++ m))]
  | .unboundLocalError m => [("error", .str ("Internal error: " ++ m))]
  | .otherError m => [("error", .str ("Internal error: " ++ m))]

/-- Section 5 (lines 325-352): the webhook shape carries the summary or a
wrapped error message at status 200; the tool shape carries `output_data` at
status 200. -/
def respond (req : InboundRequest) (d : Dict) : Nat × Resp :=
  match req with
  | .webhook _ =>
    let base := pyGetD d "resumen" (.str "Datos obtenidos correctamente de Stratix.")
    let txt : JVal :=
      if hasKey d "error" then .str ("Lo siento, hubo un error: " ++ pyStr (pyGet d "error"))
      else base
    (200, .fulfillment [txt])
  | .tool t => (200, .toolOutput t.tool d)

/-- The observable result of one invocation: HTTP status, response body, the
payload sent downstream (if the call was made), and the final `output_data`
(absent on the early-return path). -/
structure HandlerResult where
  status : Nat
  body : Resp
  outbound : Option Payload
  outputData : Option Dict
deriving DecidableEq

/-- `bot_stratix_backend_generative` from `main.py`: run the try block, apply
the except clauses, and shape the response. -/
def bot_stratix_backend_generative (env : Env) (req : InboundRequest) : HandlerResult :=
  match runTry env req with
  | .earlyReturn st body => ⟨st, body, none, none⟩
  | .exc sent e =>
    let d := handleExc e
    let r := respond req d
    ⟨r.1, r.2, sent, some d⟩
  | .outData sent d =>
    let r := respond req d
    ⟨r.1, r.2, some sent, some d⟩

/-- Does the first mapper succeed on this request? -/
def firstMapOk (req : InboundRequest) : Bool :=
  match firstMap req with
  | .ok _ => true
  | .error _ => false

/-- The closed set of downstream actions. -/
def validActions : List String :=
  ["get_company_overview", "get_initiative_status", "get_area_kpis",
   "get_user_initiatives", "search_initiatives", "get_initiative_suggestions"]

/-- The ordered predicate table of the tool-call parameter mapper as the spec
spells it out (section 4.3, steps 1-6): each entry is the matching predicate
and the resulting action with its parameters. -/
def specPredicateTable : List ((Dict → Bool) × (Dict → String × Dict)) :=
  [ (fun p => hasKey p "nombre_iniciativa" || hasKey p "initiative_id",
     fun p => ("get_initiative_status",
       [("nombre_iniciativa", pyGet p "nombre_iniciativa"),
        ("initiative_id", pyGet p "initiative_id")])),
    (fun p => hasKey p "nombre_area" || hasKey p "area_id",
     fun p => ("get_area_kpis",
       [("nombre_area", pyGet p "nombre_area"), ("area_id", pyGet p "area_id")])),
    (fun p => hasKey p "user_id",
     fun p => ("get_user_initiatives",
       [("user_id", pyGet p "user_id"), ("limit", pyGetD p "limit" (.num 10))])),
    (fun p => hasKey p "query",
     fun p => ("search_initiatives",
       [("query", pyGet p "query"), ("limit", pyGetD p "limit" (.num 20))])),
    (fun p => pyGet p "action" = .str "company_overview",
     fun _ => ("get_company_overview", [])),
    (fun p => pyGet p "action" = .str "suggestions",
     fun p => ("get_initiative_suggestions",
       [("area_id", pyGet p "area_id"), ("user_role", pyGet p "user_role")])) ]

/-- First-match-wins evaluation of the spec's ordered predicate table; when no
predicate matches it fails with the same error the code raises. -/
def specToolMapper (p : Dict) : Except PyError (String × Dict) :=
  match specPredicateTable.find? (fun e => e.1 p) with
  | some e => .ok (e.2 p)
  | none =>
    .error (.valueError ("No valid action found for tool parameters: " ++ pyRepr (.obj p)))

/-! ## Shared fixtures for concrete evaluations -/

/-- An environment in which every collaborator behaves: both secrets resolve
to non-empty strings, the platform URL is configured, and the downstream call
succeeds with an empty data object. -/
def envBase : Env := ⟨.ok "u", .ok "k", some "https://platform", .ok []⟩

/-- A webhook request with the `initiative_status` tag, an extractable
initiative name in the text, and empty session parameters. -/
def wEmptySession : WebhookReq := ⟨"initiative_status", [], "¿cómo va la iniciativa de pagos?"⟩

/-- A successful downstream initiative-status data object carrying an id,
title, progress, and status, but no summary or link. -/
def dataInit : Dict :=
  [("id", .str "1"), ("title", .str "X"), ("progress", .num 50), ("status", .str "active")]

/-- An environment whose platform base URL is not configured
(`get_platform_base_url` raises) and whose downstream call succeeds with
`dataInit`. -/
def envNoPlatform : Env := ⟨.ok "u", .ok "k", none, .ok dataInit⟩

/-- A tool call that resolves to `get_initiative_status`. -/
def reqInit : InboundRequest := .tool ⟨"t/x", [("nombre_iniciativa", .str "X")]⟩

/-- An environment whose downstream call fails with HTTP 500. -/
def envHttpErr : Env := ⟨.ok "u", .ok "k", some "https://platform", .httpError 500 "boom"⟩

/-- An environment in which the Supabase URL secret resolves to the empty
string, making the credential check fail. -/
def envEmptyCred : Env := ⟨.ok "", .ok "k", some "https://platform", .ok []⟩

/-- Tool parameters containing both an initiative name and a user id. -/
def pBoth : Dict := [("nombre_iniciativa", .str "X"), ("user_id", .str "u1")]

/-! ## Helper lemmas about the handler -/

/-- The webhook path never takes the early-return branch: the only early
return is the credential 500, which on the webhook path raises `NameError`
instead. -/
theorem runTry_webhook_no_early (env : Env) (w : WebhookReq) (st : Nat) (body : Resp) :
    ¬(runTry env (.webhook w) = .earlyReturn st body) := by
  intro h
  unfold runTry at h
  repeat' split at h
  all_goals simp_all

/-- When the try block ends in an exception, the downstream call either had
not happened or carried exactly the payload of the second mapper. -/
theorem runTry_exc_sent (env : Env) (req : InboundRequest) (s : Option Payload) (e : PyError)
    (h : runTry env req = .exc s e) : s = none ∨ s = some (payloadOf req) := by
  unfold runTry at h
  repeat' split at h
  all_goals simp_all

/-- When the try block produced output data, the downstream call carried
exactly the payload of the second mapper. -/
theorem runTry_outData_sent (env : Env) (req : InboundRequest) (s : Payload) (d : Dict)
    (h : runTry env req = .outData s d) : s = payloadOf req := by
  unfold runTry at h
  repeat' split at h
  all_goals simp_all

/-- Every invocation either makes no downstream call or sends exactly the
payload of the second mapper. -/
theorem outbound_spec (env : Env) (req : InboundRequest) :
    (bot_stratix_backend_generative env req).outbound = none ∨
    (bot_stratix_backend_generative env req).outbound = some (payloadOf req) := by
  cases hr : runTry env req with
  | earlyReturn st body => left; simp [bot_stratix_backend_generative, hr]
  | exc s e =>
    rcases runTry_exc_sent env req s e hr with h | h
    · left; simp [bot_stratix_backend_generative, hr, h]
    · right; simp [bot_stratix_backend_generative, hr, h]
  | outData s d =>
    right
    simp [bot_stratix_backend_generative, hr, runTry_outData_sent env req s d hr]

/-- The second mapper only ever produces actions from the closed set. -/
theorem secondMap_action_mem (p : Dict) : (secondMap p).1 ∈ validActions := by
  unfold secondMap validActions
  repeat' split
  all_goals simp

/-! ## The claims -/

/-- C1 (counterexample to the claim as stated): a webhook call with the
unsupported tag `"foo"` is answered with HTTP 200, not a 400-class status:
the `ValueError` raised by the tag mapper is caught by the generic exception
handler and converted into a webhook-shaped reply. -/
theorem C1_counterexample :
    (bot_stratix_backend_generative envBase (.webhook ⟨"foo", [], "hola"⟩)).status = 200 ∧
    ¬(400 ≤ (bot_stratix_backend_generative envBase (.webhook ⟨"foo", [], "hola"⟩)).status ∧
      (bot_stratix_backend_generative envBase (.webhook ⟨"foo", [], "hola"⟩)).status < 500) := by
  decide

/-- C1 (amended): for every webhook call whose tag is not one of
`company_overview`, `initiative_status`, `area_kpis`, normalization fails with
the `ValueError` `"Unsupported tag: <tag>"` and the action is never silently
defaulted to company overview — no downstream call is made — but the HTTP
layer returns the webhook-shaped reply with status 200 and the error message
embedded, not a 400-class client error. -/
theorem C1_unsupported_tag_amended (env : Env) (w : WebhookReq)
    (h1 : ¬(w.tag = "company_overview")) (h2 : ¬(w.tag = "initiative_status"))
    (h3 : ¬(w.tag = "area_kpis")) :
    webhookFirstMap w = .error (.valueError ("Unsupported tag: " ++ w.tag)) ∧
    (bot_stratix_backend_generative env (.webhook w)).status = 200 ∧
    (bot_stratix_backend_generative env (.webhook w)).outbound = none ∧
    (bot_stratix_backend_generative env (.webhook w)).body =
      .fulfillment [.str ("Lo siento, hubo un error: " ++
        ("Internal error: " ++ ("Unsupported tag: " ++ w.tag)))] := by
  have hfm : webhookFirstMap w = .error (.valueError ("Unsupported tag: " ++ w.tag)) := by
    unfold webhookFirstMap
    simp [h1, h2, h3]
  have hrt : runTry env (.webhook w) = .exc none (.valueError ("Unsupported tag: " ++ w.tag)) := by
    simp [runTry, firstMap, hfm]
  refine ⟨hfm, ?_, ?_, ?_⟩ <;>
    simp [bot_stratix_backend_generative, hrt, respond, handleExc, hasKey, dlookup, pyGet, pyStr]

/-- C1 (witness): the amended statement at the concrete tag `"foo"`. -/
theorem C1_amended_witness :
    webhookFirstMap ⟨"foo", [], "hola"⟩ =
      .error (.valueError ("Unsupported tag: " ++ "foo")) ∧
    (bot_stratix_backend_generative envBase (.webhook ⟨"foo", [], "hola"⟩)).status = 200 ∧
    (bot_stratix_backend_generative envBase (.webhook ⟨"foo", [], "hola"⟩)).outbound = none ∧
    (bot_stratix_backend_generative envBase (.webhook ⟨"foo", [], "hola"⟩)).body =
      .fulfillment [.str ("Lo siento, hubo un error: " ++
        ("Internal error: " ++ ("Unsupported tag: " ++ "foo")))] :=
  C1_unsupported_tag_amended envBase ⟨"foo", [], "hola"⟩ (by decide) (by decide) (by decide)

/-- C2: whenever a request of either shape reaches the outbound downstream
call, the action and params actually sent are exactly the second mapper's
output over the top-level params (the session parameters in the webhook
case), with the tag mapping and first tool mapper results discarded; the
second mapper silently defaults to `get_company_overview` with empty params,
as on a webhook call with empty session parameters whose tag mapping had
extracted an initiative name. -/
theorem C2_second_mapper_decides_outbound :
    (∀ (env : Env) (req : InboundRequest) (pl : Payload),
      (bot_stratix_backend_generative env req).outbound = some pl →
      pl.action = (secondMap (topParams req)).1 ∧ pl.params = (secondMap (topParams req)).2) ∧
    secondMap [] = ("get_company_overview", []) ∧
    webhookFirstMap wEmptySession =
      .ok ("get_initiative_status", [("nombre_iniciativa", .str "Pagos")]) ∧
    (bot_stratix_backend_generative envBase (.webhook wEmptySession)).outbound =
      some ⟨"get_company_overview", [], none⟩ := by
  refine ⟨?_, by decide, by decide, by decide⟩
  intro env req pl h
  rcases outbound_spec env req with ho | ho
  · rw [ho] at h
    exact absurd h (by simp)
  · rw [ho] at h
    injection h with h1
    subst h1
    exact ⟨rfl, rfl⟩

/-- C2 (witness): the universally quantified part applied to the concrete
webhook call with empty session parameters. -/
theorem C2_witness :
    ("get_company_overview" : String) =
      (secondMap (topParams (.webhook wEmptySession))).1 ∧
    ([] : Dict) = (secondMap (topParams (.webhook wEmptySession))).2 :=
  C2_second_mapper_decides_outbound.1 envBase (.webhook wEmptySession)
    ⟨"get_company_overview", [], none⟩ (by decide)

/-- C3 (the code at the failing input): with the platform base URL not
configured and a successful downstream initiative-status response, the
handler does not abort (status 200, the data object is returned), but the
output contains neither the `link` key nor the `resumen` key: the
`ValueError` raised by `get_platform_base_url` skips the entire enrichment
block, including the summary the claim says is still populated. -/
theorem C3_missing_base_url_drops_resumen_and_link :
    (bot_stratix_backend_generative envNoPlatform reqInit).status = 200 ∧
    (bot_stratix_backend_generative envNoPlatform reqInit).outputData = some dataInit ∧
    dlookup dataInit "resumen" = none ∧
    dlookup dataInit "link" = none := by
  decide

/-- C4: extraction on the utterance "¿Cómo va la Iniciativa de Migración de
Datos?" yields the title-cased "Migración De Datos", and the webhook tag
mapper resolves the `initiative_status` tag to the `get_initiative_status`
action carrying that name, for any session parameters. -/
theorem C4_extraction_and_action :
    extract_initiative_name_from_text "¿Cómo va la Iniciativa de Migración de Datos?" =
      some "Migración De Datos" ∧
    ∀ sp : Dict,
      webhookFirstMap ⟨"initiative_status", sp, "¿Cómo va la Iniciativa de Migración de Datos?"⟩ =
        .ok ("get_initiative_status", [("nombre_iniciativa", .str "Migración De Datos")]) := by
  have hx : extract_initiative_name_from_text "¿Cómo va la Iniciativa de Migración de Datos?" =
      some "Migración De Datos" := by decide
  refine ⟨hx, fun sp => ?_⟩
  unfold webhookFirstMap
  simp [hx]

/-- C5: the tool-call parameter mapper is exactly first-match-wins evaluation
of the spec's ordered predicate table (initiative, area, user, query,
company-overview action, suggestions action), and in particular a parameter
set containing both `nombre_iniciativa` and `user_id` resolves to
`get_initiative_status`, never `get_user_initiatives`. -/
theorem C5_tool_mapper_precedence :
    (∀ p : Dict, toolFirstMap p = specToolMapper p) ∧
    toolFirstMap pBoth =
      .ok ("get_initiative_status",
        [("nombre_iniciativa", .str "X"), ("initiative_id", .null)]) := by
  refine ⟨?_, by decide⟩
  intro p
  unfold toolFirstMap specToolMapper specPredicateTable
  simp only [List.find?]
  cases h1 : (hasKey p "nombre_iniciativa" || hasKey p "initiative_id")
  · cases h2 : (hasKey p "nombre_area" || hasKey p "area_id")
    · cases h3 : hasKey p "user_id"
      · cases h4 : hasKey p "query"
        · by_cases h5 : pyGet p "action" = JVal.str "company_overview"
          · simp [h1, h2, h3, h4, h5]
          · by_cases h6 : pyGet p "action" = JVal.str "suggestions"
            · simp [h1, h2, h3, h4, h5, h6]
            · simp [h1, h2, h3, h4, h5, h6]
        · simp [h1, h2, h3, h4]
      · simp [h1, h2, h3]
    · simp [h1, h2]
  · simp [h1]

/-- C6 (counterexample to the claim as stated): for the tool parameters
containing both `nombre_iniciativa` and `user_id`, normalization keeps only
the matched action's fixed key set: the original `user_id` pair is dropped
from the normalized params even though no default was injected for it. -/
theorem C6_counterexample :
    toolFirstMap pBoth =
      .ok ("get_initiative_status",
        [("nombre_iniciativa", .str "X"), ("initiative_id", .null)]) ∧
    dlookup pBoth "user_id" = some (.str "u1") ∧
    dlookup [("nombre_iniciativa", JVal.str "X"), ("initiative_id", JVal.null)] "user_id" =
      none := by
  decide

/-- Case analysis on a dict lookup against the shape of values the normalized
parameters can hold: the stored value untouched, or the default when the key
is absent. -/
theorem dget_disj (p : Dict) (k : String) (dflt : JVal)
    (hd : dflt = .null ∨ (k = "limit" ∧ (dflt = .num 10 ∨ dflt = .num 20))) :
    dlookup p k = some ((dlookup p k).getD dflt) ∨
    (dlookup p k = none ∧ ((dlookup p k).getD dflt = .null ∨
      (k = "limit" ∧ ((dlookup p k).getD dflt = .num 10 ∨
        (dlookup p k).getD dflt = .num 20)))) := by
  cases hl : dlookup p k with
  | some w => left; simp [hl]
  | none =>
    right
    refine ⟨rfl, ?_⟩
    simp only [hl, Option.getD_none]
    exact hd

/-- C6 (amended): normalizing a `ToolCall` retains, for every key/value pair
of the normalized params, the original inbound value untouched whenever the
key was present inbound; keys outside the matched action's fixed parameter
set are dropped, and a fixed key absent inbound appears as `null` — or, for
`limit`, as the injected default 10 or 20. -/
theorem C6_roundtrip_amended (p : Dict) (a : String) (sp : Dict) (k : String) (v : JVal)
    (h : toolFirstMap p = .ok (a, sp)) (hmem : (k, v) ∈ sp) :
    dlookup p k = some v ∨
    (dlookup p k = none ∧
      (v = .null ∨ (k = "limit" ∧ (v = .num 10 ∨ v = .num 20)))) := by
  unfold toolFirstMap at h
  repeat' split at h
  all_goals (try exact Except.noConfusion h)
  all_goals
    injection h with h1
    injection h1 with ha hsp
    subst hsp
    simp only [List.mem_cons, List.not_mem_nil, or_false, Prod.mk.injEq] at hmem
  all_goals
    rcases hmem with ⟨rfl, rfl⟩ | ⟨rfl, rfl⟩ <;>
      (simp only [pyGet, pyGetD]
       first
        | (refine dget_disj p _ _ ?_; simp)
        | (cases hl : dlookup p "limit" <;> simp [hl]))

/-- C6 (witness): the amended statement at the concrete parameters
`(user_id, u1)` with the defaulted pair `(limit, 10)`. -/
theorem C6_amended_witness :
    dlookup [("user_id", JVal.str "u1")] "limit" = some (.num 10) ∨
    (dlookup [("user_id", JVal.str "u1")] "limit" = none ∧
      (JVal.num 10 = .null ∨ ("limit" = "limit" ∧ (JVal.num 10 = .num 10 ∨ JVal.num 10 = .num 20)))) :=
  C6_roundtrip_amended [("user_id", .str "u1")] "get_user_initiatives"
    [("user_id", .str "u1"), ("limit", .num 10)] "limit" (.num 10) (by decide) (by decide)

/-- C7: whenever a webhook call reaches the downstream call (credentials
resolve non-empty and the tag mapping succeeds) and the downstream call fails
with a non-200 HTTP status or a network error, the error is caught, wrapped
into the `error` field of the output payload, and the webhook-shaped response
is returned with HTTP status 200. -/
theorem C7_downstream_failure_webhook_200 (env : Env) (w : WebhookReq) (u k : String)
    (hu : env.supabaseUrl = .ok u) (hk : env.supabaseKey = .ok k)
    (hun : ¬(u = "")) (hkn : ¬(k = "")) (hok : firstMapOk (.webhook w) = true) :
    (∀ st b, env.downstream = .httpError st b →
      (bot_stratix_backend_generative env (.webhook w)).status = 200 ∧
      (bot_stratix_backend_generative env (.webhook w)).outputData =
        some [("error", .str ("Supabase request failed: " ++ toString st ++ " - " ++ b))] ∧
      (bot_stratix_backend_generative env (.webhook w)).body =
        .fulfillment [.str ("Lo siento, hubo un error: " ++
          ("Supabase request failed: " ++ toString st ++ " - " ++ b))]) ∧
    (∀ m, env.downstream = .netError m →
      (bot_stratix_backend_generative env (.webhook w)).status = 200 ∧
      (bot_stratix_backend_generative env (.webhook w)).outputData =
        some [("error", .str ("Network error calling Supabase: " ++ m))] ∧
      (bot_stratix_backend_generative env (.webhook w)).body =
        .fulfillment [.str ("Lo siento, hubo un error: " ++
          ("Network error calling Supabase: " ++ m))]) := by
  obtain ⟨r, hfmr⟩ : ∃ r, firstMap (.webhook w) = .ok r := by
    unfold firstMapOk at hok
    cases hf : firstMap (.webhook w) with
    | ok r => exact ⟨r, rfl⟩
    | error e => rw [hf] at hok; simp at hok
  constructor
  · intro st b hds
    have hrt : runTry env (.webhook w) = .outData (payloadOf (.webhook w))
        [("error", .str ("Supabase request failed: " ++ toString st ++ " - " ++ b))] := by
      simp [runTry, hfmr, hu, hk, hds, hun, hkn]
    refine ⟨?_, ?_, ?_⟩ <;>
      simp [bot_stratix_backend_generative, hrt, respond, hasKey, dlookup, pyGet, pyStr]
  · intro m hds
    have hrt : runTry env (.webhook w) =
        .exc (some (payloadOf (.webhook w))) (.requestException m) := by
      simp [runTry, hfmr, hu, hk, hds, hun, hkn]
    refine ⟨?_, ?_, ?_⟩ <;>
      simp [bot_stratix_backend_generative, hrt, respond, handleExc, hasKey, dlookup, pyGet, pyStr]

/-- C7 (witness): the downstream HTTP 500 failure on a concrete webhook
call. -/
theorem C7_witness :
    (bot_stratix_backend_generative envHttpErr (.webhook ⟨"company_overview", [], ""⟩)).status =
      200 ∧
    (bot_stratix_backend_generative envHttpErr (.webhook ⟨"company_overview", [], ""⟩)).outputData =
      some [("error", .str ("Supabase request failed: " ++ toString 500 ++ " - " ++ "boom"))] ∧
    (bot_stratix_backend_generative envHttpErr (.webhook ⟨"company_overview", [], ""⟩)).body =
      .fulfillment [.str ("Lo siento, hubo un error: " ++
        ("Supabase request failed: " ++ toString 500 ++ " - " ++ "boom"))] :=
  (C7_downstream_failure_webhook_200 envHttpErr ⟨"company_overview", [], ""⟩ "u" "k"
    rfl rfl (by decide) (by decide) (by decide)).1 500 "boom" rfl

/-- C8: whenever a request of either shape results in an outbound call to the
downstream data API, the action field of the outbound payload is one of the
fixed closed set of six actions. -/
theorem C8_outbound_action_closed_set (env : Env) (req : InboundRequest) (pl : Payload)
    (h : (bot_stratix_backend_generative env req).outbound = some pl) :
    pl.action ∈ validActions := by
  rcases outbound_spec env req with ho | ho
  · rw [ho] at h
    exact absurd h (by simp)
  · rw [ho] at h
    injection h with h1
    subst h1
    exact secondMap_action_mem (topParams req)

/-- C8 (witness): the closed-set invariant at a concrete invocation that
makes a downstream call. -/
theorem C8_witness : ("get_company_overview" : String) ∈ validActions :=
  C8_outbound_action_closed_set envBase (.webhook wEmptySession)
    ⟨"get_company_overview", [], none⟩ (by decide)

/-- C10: every webhook call with a valid JSON body is answered with HTTP 200,
whatever the environment does (unsupported tag, secret failure, empty
credentials, downstream failure, enrichment failure); in particular when the
credential check fails, the only 500 branch reads `tool_name_full`, a local
never assigned on the webhook path, so instead of returning 500 it raises
`UnboundLocalError` (a `NameError`), which the generic handler catches and
converts — with no downstream call made — into a 200 webhook reply embedding
the interpreter's message for that error. -/
theorem C10_webhook_always_200 :
    (∀ (env : Env) (w : WebhookReq),
      (bot_stratix_backend_generative env (.webhook w)).status = 200) ∧
    (∀ (env : Env) (w : WebhookReq) (k : String),
      env.supabaseUrl = .ok "" → env.supabaseKey = .ok k → w.tag = "company_overview" →
      (bot_stratix_backend_generative env (.webhook w)).status = 200 ∧
      (bot_stratix_backend_generative env (.webhook w)).outbound = none ∧
      (bot_stratix_backend_generative env (.webhook w)).body =
        .fulfillment
          [.str ("Lo siento, hubo un error: " ++ ("Internal error: " ++ unboundLocalMsg))]) := by
  constructor
  · intro env w
    cases hr : runTry env (.webhook w) with
    | earlyReturn st body => exact absurd hr (runTry_webhook_no_early env w st body)
    | exc s e => simp [bot_stratix_backend_generative, hr, respond]
    | outData s d => simp [bot_stratix_backend_generative, hr, respond]
  · intro env w k hu hk ht
    have hfm : firstMap (.webhook w) = .ok ("get_company_overview", []) := by
      simp [firstMap, webhookFirstMap, ht]
    have hrt : runTry env (.webhook w) = .exc none (.unboundLocalError unboundLocalMsg) := by
      simp [runTry, hfm, hu, hk]
    refine ⟨?_, ?_, ?_⟩ <;>
      simp [bot_stratix_backend_generative, hrt, respond, handleExc, hasKey, dlookup, pyGet, pyStr]

/-- C10 (witness): the always-200 statement at a concrete webhook call with
an empty credential, exercising the `UnboundLocalError` branch. -/
theorem C10_witness :
    (bot_stratix_backend_generative envEmptyCred (.webhook ⟨"company_overview", [], ""⟩)).status =
      200 ∧
    (bot_stratix_backend_generative envEmptyCred (.webhook ⟨"company_overview", [], ""⟩)).outbound =
      none ∧
    (bot_stratix_backend_generative envEmptyCred (.webhook ⟨"company_overview", [], ""⟩)).body =
      .fulfillment
        [.str ("Lo siento, hubo un error: " ++ ("Internal error: " ++ unboundLocalMsg))] :=
  C10_webhook_always_200.2 envEmptyCred ⟨"company_overview", [], ""⟩ "k" rfl rfl rfl

/-- C9: on the input "iniciativa  ?" the first pattern matches with the
capture group consisting of a single space (the `\s+` backtracks to leave one
whitespace character for `[^?]+`), which strips to the empty string, so
extraction returns the empty string rather than `None`; the webhook mapping
then treats this falsy value like an absent extraction and omits the
`nombre_iniciativa` key. -/
theorem C9_empty_string_extraction :
    extract_initiative_name_from_text "iniciativa  ?" = some "" ∧
    ∀ sp : Dict,
      webhookFirstMap ⟨"initiative_status", sp, "iniciativa  ?"⟩ =
        .ok ("get_initiative_status", []) := by
  have hx : extract_initiative_name_from_text "iniciativa  ?" = some "" := by decide
  refine ⟨hx, fun sp => ?_⟩
  unfold webhookFirstMap
  simp [hx]

end Stratix
